import Mathlib

/-!
Verification of the ATSpect resume-feedback application core.

Shallow embedding of:
* the resilience utilities of src/unnamed/part_003
  (retryWithBackoff, isRetryableError, createProgressTracker);
* the analysis client of src/unnamed/part_006 and
  src/src/services/perplexityService.js (analyzeResumeWithPerplexity);
* the health-check circuit breaker and resumeService.delete of
  src/src/lib/supabase.js;
* the upload orchestrator handleAnalyze / handleCancel /
  cleanupFailedUpload of src/unnamed/part_005.

Asynchronous JavaScript is embedded as pure functions over explicit
oracles: each external call (network request, blob upload, database
operation, AI request) is represented by an input describing its
outcome, and the embedded function computes the value the orchestration
code would produce, together with the observable side effects (a trace
of issued actions, or the resulting store contents). Timer-based
waiting (backoff delays, timeouts) has no observable effect beyond the
classification of the resulting error, so delays are dropped from the
embedding while the error classification is kept.
-/

namespace ATSpect

-- ===================================================================
-- Resilience utilities (src/unnamed/part_003)
-- ===================================================================

/-- JavaScript substring containment over character lists:
needle.isPrefixOf here, or contained further right. Mirrors
String.prototype.includes. -/
def charsInclude (needle : List Char) : List Char → Bool
  | [] => needle.isEmpty
  | c :: rest => needle.isPrefixOf (c :: rest) || charsInclude needle rest

/-- Keyword list of isRetryableError (src/unnamed/part_003 lines 386-401). -/
def retryableKeywords : List String :=
  ["timeout", "network", "fetch", "connection",
   "service temporarily unavailable", "internal server error",
   "bad gateway", "service unavailable", "gateway timeout"]

/-- isRetryableError (src/unnamed/part_003 lines 386-401): true when the
lower-cased error message contains one of the retryable keywords.
Lower-casing is written over the character list (String.toLower is the
same character-wise map). -/
def isRetryableError (msg : String) : Bool :=
  let lowered := msg.data.map Char.toLower
  retryableKeywords.any fun kw => charsInclude kw.data lowered

/-- Keyword list of isNetworkError (src/unnamed/part_003 lines 371-383). -/
def networkErrorKeywords : List String :=
  ["network", "fetch", "timeout", "connection", "offline", "unreachable"]

/-- isNetworkError (src/unnamed/part_003 lines 371-383). -/
def isNetworkError (msg : String) : Bool :=
  let lowered := msg.data.map Char.toLower
  networkErrorKeywords.any fun kw => charsInclude kw.data lowered

/-- Loop body of retryWithBackoff (src/unnamed/part_003 lines 325-355).
The operation fn receives the 1-based attempt number and either resolves
(Except.ok) or rejects (Except.error). remaining counts the attempts
still allowed, including the current one; the pair returned is the
overall result together with the number of invocations of fn. The
error component is Option: error none models the JavaScript
throw of the undefined lastError when maxRetries is zero. Backoff
delays are timing only and are dropped. The loop performs no
retryability classification: every rejection short of the attempt
ceiling is retried. -/
def retryGo (fn : Nat → Except ε α) : Nat → Nat → Except (Option ε) α × Nat
  | _, 0 => (Except.error none, 0)
  | attempt, remaining + 1 =>
    match fn attempt with
    | Except.ok v => (Except.ok v, 1)
    | Except.error e =>
      if remaining = 0 then (Except.error (some e), 1)
      else
        let p := retryGo fn (attempt + 1) remaining
        (p.1, p.2 + 1)

/-- retryWithBackoff (src/unnamed/part_003 lines 325-355), attempts
numbered from 1 up to maxRetries. -/
def retryWithBackoff (fn : Nat → Except ε α) (maxRetries : Nat) :
    Except (Option ε) α × Nat :=
  retryGo fn 1 maxRetries

/-- The progressData object reported by the tracker of
createProgressTracker (src/unnamed/part_003 lines 408-447). -/
structure ProgressData where
  step : Nat
  totalSteps : Nat
  progress : Nat
  message : String
deriving Repr, DecidableEq

/-- Math.round of (step / totalSteps) * 100 for totalSteps > 0,
computed as floor(x + 1/2) over naturals. -/
def progressPercent (totalSteps step : Nat) : Nat :=
  (200 * step + totalSteps) / (2 * totalSteps)

/-- update of the tracker returned by createProgressTracker
(src/unnamed/part_003 lines 412-429): sets currentStep to step and
reports step, totalSteps, rounded progress and the message. The first
component is the new currentStep closure state. -/
def trackerUpdate (totalSteps state step : Nat) (message : String) :
    Nat × ProgressData :=
  (step,
   { step := step
     totalSteps := totalSteps
     progress := progressPercent totalSteps step
     message := message })

/-- increment (src/unnamed/part_003 lines 431-433): update at
currentStep + 1. -/
def trackerIncrement (totalSteps state : Nat) (message : String) :
    Nat × ProgressData :=
  trackerUpdate totalSteps state (state + 1) message

/-- complete (src/unnamed/part_003 lines 435-437): update at
totalSteps. -/
def trackerComplete (totalSteps state : Nat) (message : String) :
    Nat × ProgressData :=
  trackerUpdate totalSteps state totalSteps message

/-- One call on the tracker object. -/
inductive TrackerOp where
  | update (step : Nat) (message : String)
  | increment (message : String)
  | complete (message : String)
deriving Repr, DecidableEq

/-- Dispatch of one tracker call. -/
def trackerApply (totalSteps state : Nat) : TrackerOp → Nat × ProgressData
  | TrackerOp.update step m => trackerUpdate totalSteps state step m
  | TrackerOp.increment m => trackerIncrement totalSteps state m
  | TrackerOp.complete m => trackerComplete totalSteps state m

/-- The successive currentStep values produced by a sequence of tracker
calls. -/
def trackerStates (totalSteps state : Nat) : List TrackerOp → List Nat
  | [] => []
  | op :: rest =>
    let s := (trackerApply totalSteps state op).1
    s :: trackerStates totalSteps s rest

/-- Pairwise nondecreasing test on a list of counter values. -/
def nondecreasing : List Nat → Bool
  | [] => true
  | [_] => true
  | a :: b :: rest => Nat.ble a b && nondecreasing (b :: rest)

/-- The tracker calls issued by handleAnalyze (src/unnamed/part_005) on
its happy path with preview generation succeeding, against the
components totalSteps = 7: one update to 0, nine increments, then
complete. -/
def uploadFlowTrackerOps : List TrackerOp :=
  [TrackerOp.update 0 "Performing pre-flight checks...",
   TrackerOp.increment "Extracting text from PDF...",
   TrackerOp.increment "Uploading PDF file...",
   TrackerOp.increment "PDF uploaded successfully",
   TrackerOp.increment "Creating image preview...",
   TrackerOp.increment "Image preview created successfully",
   TrackerOp.increment "Saving resume information...",
   TrackerOp.increment "Resume information saved",
   TrackerOp.increment "Analyzing resume with AI (this may take up to 90 seconds)...",
   TrackerOp.increment "Saving analysis results...",
   TrackerOp.complete "Analysis complete! Redirecting..."]

-- ===================================================================
-- Analysis client (src/unnamed/part_006 and
-- src/src/services/perplexityService.js; both files share the retry
-- loop, the code-fence stripping and the shape validation verbatim)
-- ===================================================================

/-- MAX_RETRIES of the analysis client. -/
def MAX_RETRIES : Nat := 2

/-- The parsed API response restricted to the two fields the client
validates. A numeric field is Option Int, none standing for an absent
or null field; the categories object is modelled by its optional key
list (a present object is always truthy in JavaScript). -/
structure ParsedAnalysis where
  overall_score : Option Int
  ats_score : Option Int
  categories : Option (List String)
deriving Repr, DecidableEq

/-- JavaScript truthiness of a numeric-or-absent field: false for an
absent or null field and for the number 0, true otherwise. -/
def jsTruthyNum : Option Int → Bool
  | none => false
  | some n => n != 0

/-- The validation guard of analyzeResumeWithPerplexity
(src/unnamed/part_006 line 231, src/src/services/perplexityService.js
line 197): the negation of (falsy overall_score or falsy categories). -/
def validAnalysis (r : ParsedAnalysis) : Bool :=
  jsTruthyNum r.overall_score && r.categories.isSome

/-- content.trim().replace of the two code-fence alternatives
(src/unnamed/part_006 line 228): after trimming, a leading fence
marker "```json" plus following whitespace is removed, and a trailing
"```" is removed (after the trim, the end-anchored alternative can
match only a bare trailing fence). Written over the character list;
the trailing-fence test uses the reversed list, the fence being a
palindrome. -/
def stripCodeFence (content : String) : String :=
  let t :=
    ((content.data.dropWhile Char.isWhitespace).reverse.dropWhile
      Char.isWhitespace).reverse
  let t1 :=
    if List.isPrefixOf "```json".data t then
      (t.drop 7).dropWhile Char.isWhitespace
    else t
  let t2 :=
    if List.isPrefixOf "```".data t1.reverse then (t1.reverse.drop 3).reverse
    else t1
  String.mk t2

/-- Outcome of one attempt of the analysis client, as classified by
the catch clause: a transport failure (fetch rejection other than an
abort, a non-ok HTTP status, or a response without content), an
AbortError raised by the 60 second timeout, a JSON.parse failure, a
completed response failing the shape validation, or success. -/
inductive AttemptOutcome where
  | transportError (msg : String)
  | abortTimeout
  | parseError
  | invalidStructure
  | success (result : ParsedAnalysis)
deriving Repr, DecidableEq

/-- Terminal error of the analysis client. -/
inductive AnalyzeError where
  | transportError (msg : String)
  | abortTimeout
  | parseError
  | invalidStructure
deriving Repr, DecidableEq

/-- Classification of a completed response body: the raw content is
stripped of code-fence markup, then parsed (the JSON parser is an
oracle parameter), then shape-validated. Mirrors lines 228-236 of
src/unnamed/part_006. -/
def attemptOfContent (parseJson : String → Option ParsedAnalysis)
    (content : String) : AttemptOutcome :=
  match parseJson (stripCodeFence content) with
  | none => AttemptOutcome.parseError
  | some r =>
    if validAnalysis r then AttemptOutcome.success r
    else AttemptOutcome.invalidStructure

/-- The retry loop of analyzeResumeWithPerplexity
(src/unnamed/part_006 lines 181-248): attempts are numbered from 1;
remaining counts the attempts still allowed including the current one
(so remaining = 0 after the current attempt means attempt equals
MAX_RETRIES). On a failed attempt the error is rethrown immediately
when the attempt was the last one or when the error is an AbortError;
every other failure, including a completed response failing the shape
validation, is followed by another attempt. The pair is the overall
result and the number of attempts performed. The fuel-exhausted case
is unreachable from the entry point since MAX_RETRIES = 2. -/
def analyzeGo (f : Nat → AttemptOutcome) :
    Nat → Nat → Except AnalyzeError ParsedAnalysis × Nat
  | _, 0 => (Except.error AnalyzeError.abortTimeout, 0)
  | attempt, remaining + 1 =>
    match f attempt with
    | AttemptOutcome.success r => (Except.ok r, 1)
    | AttemptOutcome.abortTimeout =>
      (Except.error AnalyzeError.abortTimeout, 1)
    | AttemptOutcome.transportError m =>
      if remaining = 0 then (Except.error (AnalyzeError.transportError m), 1)
      else
        let p := analyzeGo f (attempt + 1) remaining
        (p.1, p.2 + 1)
    | AttemptOutcome.parseError =>
      if remaining = 0 then (Except.error AnalyzeError.parseError, 1)
      else
        let p := analyzeGo f (attempt + 1) remaining
        (p.1, p.2 + 1)
    | AttemptOutcome.invalidStructure =>
      if remaining = 0 then (Except.error AnalyzeError.invalidStructure, 1)
      else
        let p := analyzeGo f (attempt + 1) remaining
        (p.1, p.2 + 1)

/-- analyzeResumeWithPerplexity over an oracle giving the outcome of
each attempt: result plus number of attempts performed. -/
def analyzeResumeWithPerplexity (f : Nat → AttemptOutcome) :
    Except AnalyzeError ParsedAnalysis × Nat :=
  analyzeGo f 1 MAX_RETRIES

-- ===================================================================
-- Health check circuit breaker (src/src/lib/supabase.js lines 803-984)
-- ===================================================================

/-- The single _circuitBreaker object of the healthCheck service
(src/src/lib/supabase.js lines 805-811). lastFailure is a Date.now()
timestamp in milliseconds; the initial null is modelled by 0, which the
JavaScript subtraction Date.now() - null also yields. threshold and
resetTime are the constants 3 and 30000 below. -/
structure CircuitBreaker where
  failures : Nat
  lastFailure : Nat
  isOpen : Bool
deriving Repr, DecidableEq

/-- threshold of the circuit breaker. -/
def threshold : Nat := 3

/-- resetTime of the circuit breaker, in milliseconds. -/
def resetTime : Nat := 30000

/-- The initial circuit breaker state. -/
def initialCircuitBreaker : CircuitBreaker :=
  { failures := 0, lastFailure := 0, isOpen := false }

/-- _checkCircuit (src/src/lib/supabase.js lines 813-830): returns
whether a probe may proceed, together with the updated breaker. When
the failure count has reached the threshold and the reset window has
elapsed the breaker is reset and the probe proceeds; within the window
the breaker is marked open and the probe is refused. -/
def checkCircuit (now : Nat) (cb : CircuitBreaker) : Bool × CircuitBreaker :=
  if cb.failures ≥ threshold then
    if now - cb.lastFailure > resetTime then
      (true, { cb with failures := 0, isOpen := false })
    else
      (false, { cb with isOpen := true })
  else
    (true, cb)

/-- _recordFailure (src/src/lib/supabase.js lines 832-839). -/
def recordFailure (now : Nat) (cb : CircuitBreaker) : CircuitBreaker :=
  let f := cb.failures + 1
  { failures := f
    lastFailure := now
    isOpen := if f ≥ threshold then true else cb.isOpen }

/-- _recordSuccess (src/src/lib/supabase.js lines 841-844). -/
def recordSuccess (cb : CircuitBreaker) : CircuitBreaker :=
  { cb with failures := 0, isOpen := false }

/-- Observable outcome of one health probe: the boolean returned to the
caller, whether the underlying network call was made, and the breaker
state afterwards. -/
structure ProbeResult where
  healthy : Bool
  networkCalled : Bool
  breaker : CircuitBreaker
deriving Repr, DecidableEq

/-- The shared skeleton of testConnection (src/src/lib/supabase.js
lines 847-886) and testStorageConnection (lines 889-925): consult
_checkCircuit first and return false without a network call when it
refuses; otherwise run the probe (its success is the oracle probeOk)
and record success or failure on the breaker. -/
def runProbe (now : Nat) (probeOk : Bool) (cb : CircuitBreaker) :
    ProbeResult :=
  let r := checkCircuit now cb
  if !r.1 then { healthy := false, networkCalled := false, breaker := r.2 }
  else if probeOk then
    { healthy := true, networkCalled := true, breaker := recordSuccess r.2 }
  else
    { healthy := false, networkCalled := true, breaker := recordFailure now r.2 }

/-- testConnection, the database health probe: it reads and mutates the
single _circuitBreaker object of the healthCheck service. -/
def testConnection : Nat → Bool → CircuitBreaker → ProbeResult := runProbe

/-- testStorageConnection, the storage health probe: it reads and
mutates the same single _circuitBreaker object as testConnection. -/
def testStorageConnection : Nat → Bool → CircuitBreaker → ProbeResult :=
  runProbe

/-- Threading the shared breaker through a sequence of probes given as
(timestamp, probe success) pairs. -/
def runProbes (events : List (Nat × Bool)) (cb : CircuitBreaker) :
    CircuitBreaker :=
  events.foldl (fun c e => (runProbe e.1 e.2 c).breaker) cb

-- ===================================================================
-- Feedback objects (shape used by src/unnamed/part_005 and persisted
-- by resumeService.updateFeedback)
-- ===================================================================

/-- One tip object inside a feedback category. -/
structure FeedbackTip where
  tip : String
  explanation : String
deriving Repr, DecidableEq

/-- One feedback category: a score and its tips. -/
structure FeedbackCategory where
  score : Nat
  tips : List FeedbackTip
deriving Repr, DecidableEq

/-- The five named categories of a feedback object. -/
structure FeedbackCategories where
  formatting : FeedbackCategory
  content : FeedbackCategory
  keywords : FeedbackCategory
  experience : FeedbackCategory
  skills : FeedbackCategory
deriving Repr, DecidableEq

/-- One entry of the flat suggestions list. -/
structure FeedbackSuggestion where
  category : String
  tip : String
  explanation : String
deriving Repr, DecidableEq

/-- A feedback object as handled by the orchestrator. -/
structure Feedback where
  overall_score : Nat
  ats_score : Nat
  categories : FeedbackCategories
  suggestions : List FeedbackSuggestion
deriving Repr, DecidableEq

/-- The tip repeated in every category of the placeholder feedback
object built by handleAnalyze when the AI call fails
(src/unnamed/part_005 lines 418-463). -/
def placeholderTip : FeedbackTip :=
  { tip := "AI analysis temporarily unavailable"
    explanation := "The analysis service is currently unavailable. Please try refreshing the page later." }

/-- The placeholder feedback object substituted by handleAnalyze when
analyzeResumeWithPerplexity rejects (src/unnamed/part_005 lines
418-463): all scores zero, one tip per category, one suggestion. -/
def placeholderFeedback : Feedback :=
  { overall_score := 0
    ats_score := 0
    categories :=
      { formatting := { score := 0, tips := [placeholderTip] }
        content := { score := 0, tips := [placeholderTip] }
        keywords := { score := 0, tips := [placeholderTip] }
        experience := { score := 0, tips := [placeholderTip] }
        skills := { score := 0, tips := [placeholderTip] } }
    suggestions :=
      [{ category := "system"
         tip := "AI analysis temporarily unavailable"
         explanation := "Your resume has been uploaded successfully. The AI analysis service is currently unavailable, but you can try refreshing the page later to get your analysis." }] }

-- ===================================================================
-- resumeService.delete (src/src/lib/supabase.js lines 645-695)
-- ===================================================================

/-- One resume row restricted to the fields delete reads. -/
structure ResumeRow where
  id : String
  resume_path : Option String
  image_path : Option String
deriving Repr, DecidableEq

/-- Actions issued by resumeService.delete, in order. -/
inductive DeleteAction where
  | getById (id : String)
  | dbDelete (id : String)
  | deleteBlob (path bucket : String)
deriving Repr, DecidableEq

/-- resumeService.delete (src/src/lib/supabase.js lines 645-695) over
oracles for its three remote operations: the getById read, the row
deletion, and the per-path blob deletions. Returns the result (error
codes as strings) and the ordered trace of issued actions. The two
blob deletions are issued fire-and-forget with a catch handler that
only logs, so blobDeleteOk influences neither the result nor the
trace; it is kept as a parameter to state that independence. -/
def resumeDelete (id : Option String) (getResult : Except String ResumeRow)
    (dbDeleteOk : Bool) (blobDeleteOk : String → Bool) :
    Except String Unit × List DeleteAction :=
  match id with
  | none => (Except.error "INVALID_RESUME_ID", [])
  | some rid =>
    match getResult with
    | Except.error e => (Except.error e, [DeleteAction.getById rid])
    | Except.ok resume =>
      if !dbDeleteOk then
        (Except.error "DB_DELETE_FAILED",
         [DeleteAction.getById rid, DeleteAction.dbDelete rid])
      else
        let pdfActs :=
          match resume.resume_path with
          | some p => [DeleteAction.deleteBlob p "resumes"]
          | none => []
        let imgActs :=
          match resume.image_path with
          | some p => [DeleteAction.deleteBlob p "resume-images"]
          | none => []
        (Except.ok (),
         [DeleteAction.getById rid, DeleteAction.dbDelete rid]
           ++ pdfActs ++ imgActs)

-- ===================================================================
-- Upload orchestrator (src/unnamed/part_005, the Upload component)
-- ===================================================================

/-- The transaction object of the orchestrator: the shape shared by the
local currentState variable of handleAnalyze and the transactionState
React state (src/unnamed/part_005 lines 81-87 and 307-313).
filesUploaded holds (path, bucket) pairs. -/
structure UploadTx where
  resumeId : Option String
  pdfPath : Option String
  imagePath : Option String
  dbRecordCreated : Bool
  filesUploaded : List (String × String)
deriving Repr, DecidableEq

/-- The initial transactionState value (src/unnamed/part_005 lines
81-87), also the value it is reset to. handleAnalyze never writes its
live currentState into transactionState, so during an upload the React
state keeps this value. -/
def emptyTransactionState : UploadTx :=
  { resumeId := none
    pdfPath := none
    imagePath := none
    dbRecordCreated := false
    filesUploaded := [] }

/-- The currentState value built at the start of handleAnalyze
(src/unnamed/part_005 lines 307-313). -/
def initialTx (resumeId : String) : UploadTx :=
  { emptyTransactionState with resumeId := some resumeId }

/-- One resume database row restricted to the fields the orchestrator
writes. -/
structure RecordRow where
  id : String
  image_path : Option String
  feedback : Option Feedback
deriving Repr, DecidableEq

/-- The remote state touched by an upload transaction: stored blobs as
(path, bucket) pairs, and resume rows. -/
structure World where
  blobs : List (String × String)
  records : List RecordRow
deriving Repr, DecidableEq

/-- cleanupFailedUpload (src/unnamed/part_005 lines 244-261): deletes
the database record when the given transaction state says one was
created, and deletes every blob in its filesUploaded list. Individual
deletion failures are caught and logged, never thrown; the embedding
takes the deletions to succeed, the reading most favourable to the
cleanup. -/
def cleanupFailedUpload (state : UploadTx) (w : World) : World :=
  let w1 :=
    match state.resumeId with
    | some rid =>
      if state.dbRecordCreated then
        { w with records := w.records.filter (fun r => r.id != rid) }
      else w
    | none => w
  { w1 with blobs := w1.blobs.filter (fun b => !(state.filesUploaded.contains b)) }

/-- handleCancel (src/unnamed/part_005 lines 274-296) after the user
confirms: aborts the in-flight operation (which makes handleAnalyze
take its cancellation exit), runs cleanupFailedUpload on the
transactionState React state, and resets that state. Returns the
remote state after the cleanup and the reset React state. -/
def handleCancel (reactTx : UploadTx) (w : World) : World × UploadTx :=
  (cleanupFailedUpload reactTx w, emptyTransactionState)

/-- Outcome of the non-critical preview block of handleAnalyze
(src/unnamed/part_005 lines 371-391). The block has two distinct
failure points on either side of the imagePath assignment:
convertFailed covers convertPdfToImage throwing, or resolving to an
invalid file, before the local imagePath variable is assigned (it stays
null); uploadFailed covers the preview-image upload throwing after
imagePath was already assigned the generated path (the local variable
keeps that path, while currentState is updated only after the upload
succeeds); ok covers conversion and upload both succeeding. -/
inductive PreviewOutcome where
  | convertFailed
  | uploadFailed
  | ok
deriving Repr, DecidableEq

/-- The value of the local imagePath variable of handleAnalyze after
the preview block, the value PersistRecord receives: null only when
conversion failed before the assignment at src/unnamed/part_005 line
377; after a failed preview upload it holds the already-generated
(dangling) path. -/
def previewRecordPath (p : PreviewOutcome) (imagePath : String) :
    Option String :=
  match p with
  | PreviewOutcome.convertFailed => none
  | PreviewOutcome.uploadFailed => some imagePath
  | PreviewOutcome.ok => some imagePath

/-- Oracle describing the outcome of every external call handleAnalyze
makes: the preflight health result (a warning only, no control-flow
effect), text extraction, the PDF upload, the preview block (see
PreviewOutcome), record creation, the AI analysis (some f on success,
none when it fails after its own retries), the feedback update, and
the checkpoint at which the abort signal is first observed (the
signal.aborted checks at src/unnamed/part_005 lines 335, 345, 370, 392
and 410, numbered 0-4; none when the upload is never cancelled).
pdfPath and imagePath are the paths generateFilePath produces. -/
structure UploadEnv where
  healthOk : Bool
  extractOk : Bool
  extractedTextLen : Nat
  pdfPath : String
  pdfUploadOk : Bool
  imagePath : String
  preview : PreviewOutcome
  createOk : Bool
  aiResult : Option Feedback
  updateFeedbackOk : Bool
  cancelAtCheckpoint : Option Nat
deriving Repr, DecidableEq

/-- The feedback object handleAnalyze passes on to
resumeService.updateFeedback: the AI result on success,
placeholderFeedback when analyzeResumeWithPerplexity rejected
(src/unnamed/part_005 lines 412-464). -/
def analysisOrPlaceholder : Option Feedback → Feedback
  | some f => f
  | none => placeholderFeedback

/-- Whether the abort signal is set when checkpoint j is reached: once
fired at checkpoint k it stays set for every later checkpoint. -/
def signalAborted (env : UploadEnv) (j : Nat) : Bool :=
  match env.cancelAtCheckpoint with
  | some k => k ≤ j
  | none => false

/-- Terminal outcome of one handleAnalyze run. -/
inductive UploadOutcome where
  | completed (resumeId : String)
  | cancelled
  | failed (code : String)
deriving Repr, DecidableEq

/-- Observable result of one handleAnalyze run: the outcome, the remote
state, the transactionState React state at exit, the local
currentState at exit, and the feedback object passed to
resumeService.updateFeedback when that call was reached. -/
structure UploadRun where
  outcome : UploadOutcome
  world : World
  reactTx : UploadTx
  localTx : UploadTx
  persisted : Option Feedback
deriving Repr, DecidableEq

/-- handleAnalyze (src/unnamed/part_005 lines 299-518) over the oracle
env, started with remote state w0 and React transactionState reactTx0.
The step order and error handling mirror the source: preflight failure
is a warning only; extraction failure or text shorter than 50
characters is terminal; PDF upload failure is terminal; a failure
inside the preview block is caught and swallowed, PersistRecord
receiving the local imagePath variable as previewRecordPath computes
it (null after a conversion failure, the dangling generated path
after a failed preview upload), while the image blob and the
transaction-state entries appear only when the preview upload
succeeded; record creation failure is terminal; AI failure substitutes
placeholderFeedback and continues; feedback-update failure is
terminal. A terminal failure runs cleanupFailedUpload on the local
currentState and resets the React state. A cancellation observed at a
checkpoint throws the Upload cancelled error, which the catch clause
recognises and returns from early, running no cleanup and leaving the
React state untouched. -/
def handleAnalyzeRun (env : UploadEnv) (resumeId : String) (w0 : World)
    (reactTx0 : UploadTx) : UploadRun :=
  let fail := fun (st : UploadTx) (w : World) (code : String) =>
    { outcome := UploadOutcome.failed code
      world := cleanupFailedUpload st w
      reactTx := emptyTransactionState
      localTx := st
      persisted := none : UploadRun }
  let cancelExit := fun (st : UploadTx) (w : World) =>
    { outcome := UploadOutcome.cancelled
      world := w
      reactTx := reactTx0
      localTx := st
      persisted := none : UploadRun }
  let st0 := initialTx resumeId
  if signalAborted env 0 then cancelExit st0 w0 else
  if !env.extractOk then fail st0 w0 "PDF_EXTRACTION_ERROR" else
  if env.extractedTextLen < 50 then fail st0 w0 "PDF_TEXT_EXTRACTION_FAILED" else
  if signalAborted env 1 then cancelExit st0 w0 else
  if !env.pdfUploadOk then fail st0 w0 "UPLOAD_FAILED" else
  let w1 := { w0 with blobs := w0.blobs ++ [(env.pdfPath, "resumes")] }
  let st1 := { st0 with
    pdfPath := some env.pdfPath
    filesUploaded := st0.filesUploaded ++ [(env.pdfPath, "resumes")] }
  if signalAborted env 2 then cancelExit st1 w1 else
  let previewPath := previewRecordPath env.preview env.imagePath
  let w2 :=
    if env.preview = PreviewOutcome.ok then
      { w1 with blobs := w1.blobs ++ [(env.imagePath, "resume-images")] }
    else w1
  let st2 :=
    if env.preview = PreviewOutcome.ok then
      { st1 with
        imagePath := some env.imagePath
        filesUploaded := st1.filesUploaded ++ [(env.imagePath, "resume-images")] }
    else st1
  if signalAborted env 3 then cancelExit st2 w2 else
  if !env.createOk then fail st2 w2 "DB_CREATE_FAILED" else
  let w3 := { w2 with
    records := w2.records ++
      [{ id := resumeId, image_path := previewPath, feedback := none }] }
  let st3 := { st2 with dbRecordCreated := true }
  if signalAborted env 4 then cancelExit st3 w3 else
  let feedback := analysisOrPlaceholder env.aiResult
  if !env.updateFeedbackOk then fail st3 w3 "DB_UPDATE_FAILED" else
  let w4 := { w3 with
    records := w3.records.map
      (fun r => if r.id == resumeId then { r with feedback := some feedback } else r) }
  { outcome := UploadOutcome.completed resumeId
    world := w4
    reactTx := reactTx0
    localTx := st3
    persisted := some feedback }

-- ===================================================================
-- Theorems
-- ===================================================================

/-- C2 counterexample: the claim says a non-retryable rejection makes
retryWithBackoff invoke the operation exactly once. The message
Permission denied is not retryable by the classification of
isRetryableError, yet an operation always rejecting with it is invoked
3 times by retryWithBackoff with maxRetries 3, because retryWithBackoff
never consults the retryability classification. -/
theorem retryWithBackoff_nonretryable_retried_counterexample :
    isRetryableError "Permission denied" = false ∧
    (retryWithBackoff
      (fun _ => (Except.error "Permission denied" : Except String Unit)) 3).2 = 3 :=
  ⟨rfl, rfl⟩

/-- C2 (amended): retryWithBackoff with maxRetries 3 invokes the
operation exactly 3 times whenever the operation rejects on every
attempt, whether or not the rejection is retryable; the function
performs no retryability classification and so never short-circuits. -/
theorem retryWithBackoff_always_rejecting_invokes_three_times
    {ε α : Type} (fn : Nat → Except ε α)
    (h : ∀ n, ∃ e, fn n = Except.error e) :
    (retryWithBackoff fn 3).2 = 3 := by
  obtain ⟨e1, h1⟩ := h 1
  obtain ⟨e2, h2⟩ := h 2
  obtain ⟨e3, h3⟩ := h 3
  simp [retryWithBackoff, retryGo, h1, h2, h3]

/-- C2 witness: a retryable rejection (a network timeout) also yields
exactly 3 invocations. -/
theorem retryWithBackoff_always_rejecting_invokes_three_times_witness :
    (retryWithBackoff
      (fun _ => (Except.error "network timeout" : Except String Unit)) 3).2 = 3 :=
  retryWithBackoff_always_rejecting_invokes_three_times _ (fun _ => ⟨_, rfl⟩)

/-- C3 counterexample: the claim says a completed response that fails
JSON-shape validation causes no further attempt and that a timeout is
retried. In the code the invalid-structure error is retried like any
other non-abort error (2 attempts are performed when every response is
completed but invalid), while a timeout AbortError short-circuits after
1 attempt. -/
theorem analyze_invalid_structure_retried_counterexample :
    analyzeResumeWithPerplexity (fun _ => AttemptOutcome.invalidStructure) =
      (Except.error AnalyzeError.invalidStructure, 2) ∧
    analyzeResumeWithPerplexity (fun _ => AttemptOutcome.abortTimeout) =
      (Except.error AnalyzeError.abortTimeout, 1) :=
  ⟨rfl, rfl⟩

/-- C3 (amended): analyzeResumeWithPerplexity performs up to 2 attempts;
a transport failure on the first attempt is retried (succeeding or
failing on the second attempt accordingly); a timeout AbortError is
terminal immediately without a further attempt; a completed response
failing JSON-shape validation is also retried, the invalid response
structure error becoming terminal only on the final attempt; code-fence
markup is stripped from the raw text before parsing. -/
theorem analyze_retry_policy
    (g1 g2 g3 g4 : Nat → AttemptOutcome) (m m2 : String) (r : ParsedAnalysis)
    (h1a : g1 1 = AttemptOutcome.transportError m)
    (h1b : g1 2 = AttemptOutcome.success r)
    (h2a : g2 1 = AttemptOutcome.transportError m)
    (h2b : g2 2 = AttemptOutcome.transportError m2)
    (h3 : g3 1 = AttemptOutcome.abortTimeout)
    (h4a : g4 1 = AttemptOutcome.invalidStructure)
    (h4b : g4 2 = AttemptOutcome.invalidStructure) :
    analyzeResumeWithPerplexity g1 = (Except.ok r, 2) ∧
    analyzeResumeWithPerplexity g2 =
      (Except.error (AnalyzeError.transportError m2), 2) ∧
    analyzeResumeWithPerplexity g3 = (Except.error AnalyzeError.abortTimeout, 1) ∧
    analyzeResumeWithPerplexity g4 =
      (Except.error AnalyzeError.invalidStructure, 2) ∧
    stripCodeFence "```json\nRESULT\n```" = "RESULT\n" := by
  refine ⟨?_, ?_, ?_, ?_, rfl⟩ <;>
    simp [analyzeResumeWithPerplexity, MAX_RETRIES, analyzeGo,
      h1a, h1b, h2a, h2b, h3, h4a, h4b]

/-- C3 witness: the retry policy evaluated on concrete attempt
oracles. -/
theorem analyze_retry_policy_witness :
    analyzeResumeWithPerplexity
      (fun n => if n = 1 then AttemptOutcome.transportError "network error"
        else AttemptOutcome.success
          { overall_score := some 80, ats_score := some 75,
            categories := some ["formatting"] }) =
      (Except.ok
        { overall_score := some 80, ats_score := some 75,
          categories := some ["formatting"] }, 2) ∧
    analyzeResumeWithPerplexity
      (fun n => if n = 1 then AttemptOutcome.transportError "network error"
        else AttemptOutcome.transportError "fetch failed") =
      (Except.error (AnalyzeError.transportError "fetch failed"), 2) ∧
    analyzeResumeWithPerplexity (fun _ => AttemptOutcome.abortTimeout) =
      (Except.error AnalyzeError.abortTimeout, 1) ∧
    analyzeResumeWithPerplexity (fun _ => AttemptOutcome.invalidStructure) =
      (Except.error AnalyzeError.invalidStructure, 2) ∧
    stripCodeFence "```json\nRESULT\n```" = "RESULT\n" :=
  analyze_retry_policy _ _ _ _ "network error" "fetch failed" _
    rfl rfl rfl rfl rfl rfl rfl

/-- C4: three consecutive failed probes from the initial breaker state
open the breaker; any probe within the 30 second reset window of the
last failure returns unhealthy without a network call and leaves the
breaker open; a successful probe after the window elapses closes the
breaker and resets the failure counter to 0. -/
theorem circuit_breaker_opens_blocks_and_resets
    (t1 t2 t3 t4 t5 : Nat) (b : Bool)
    (h4 : t4 - t3 ≤ resetTime) (h5 : resetTime < t5 - t3) :
    runProbes [(t1, false), (t2, false), (t3, false)] initialCircuitBreaker =
      { failures := 3, lastFailure := t3, isOpen := true } ∧
    runProbe t4 b { failures := 3, lastFailure := t3, isOpen := true } =
      { healthy := false, networkCalled := false,
        breaker := { failures := 3, lastFailure := t3, isOpen := true } } ∧
    runProbe t5 true { failures := 3, lastFailure := t3, isOpen := true } =
      { healthy := true, networkCalled := true,
        breaker := { failures := 0, lastFailure := t3, isOpen := false } } := by
  have h4' : ¬ (resetTime < t4 - t3) := not_lt.mpr h4
  refine ⟨rfl, ?_, ?_⟩
  · simp [runProbe, checkCircuit, threshold, h4']
  · simp [runProbe, checkCircuit, recordSuccess, threshold, h5]

/-- C4 witness: failures at times 0, 1, 2; a blocked probe at 1000; a
successful closing probe at 40000. -/
theorem circuit_breaker_opens_blocks_and_resets_witness :
    runProbes [(0, false), (1, false), (2, false)] initialCircuitBreaker =
      { failures := 3, lastFailure := 2, isOpen := true } ∧
    runProbe 1000 true { failures := 3, lastFailure := 2, isOpen := true } =
      { healthy := false, networkCalled := false,
        breaker := { failures := 3, lastFailure := 2, isOpen := true } } ∧
    runProbe 40000 true { failures := 3, lastFailure := 2, isOpen := true } =
      { healthy := true, networkCalled := true,
        breaker := { failures := 0, lastFailure := 2, isOpen := false } } :=
  circuit_breaker_opens_blocks_and_resets 0 1 2 1000 40000 true
    (by decide) (by decide)

/-- C5 counterexample: the claim says the storage probe leaves the
database breaker unchanged. The healthCheck service has a single shared
breaker: one failed storage probe already changes the state the
database probe consults, and after three failed storage probes a
database probe whose own check would succeed is short-circuited to
unhealthy without a network call. -/
theorem storage_probe_mutates_database_breaker_counterexample :
    (testStorageConnection 0 false initialCircuitBreaker).breaker ≠
      initialCircuitBreaker ∧
    (testConnection 3 true
      (runProbes [(0, false), (1, false), (2, false)]
        initialCircuitBreaker)).healthy = false ∧
    (testConnection 3 true
      (runProbes [(0, false), (1, false), (2, false)]
        initialCircuitBreaker)).networkCalled = false := by
  refine ⟨by decide, by decide, by decide⟩

/-- C5 (amended): the healthCheck service keeps one shared circuit
breaker for both dependencies: testStorageConnection and testConnection
are the same probe procedure over the same breaker state, so storage
probe outcomes alter the breaker the database probe consults; after
three failed storage probes the shared breaker holds 3 failures and is
open, and the next database probe is short-circuited to unhealthy with
no network call. -/
theorem healthCheck_single_shared_breaker :
    testStorageConnection = testConnection ∧
    runProbes [(0, false), (1, false), (2, false)] initialCircuitBreaker =
      { failures := 3, lastFailure := 2, isOpen := true } ∧
    testConnection 3 true
      { failures := 3, lastFailure := 2, isOpen := true } =
      { healthy := false, networkCalled := false,
        breaker := { failures := 3, lastFailure := 2, isOpen := true } } :=
  ⟨rfl, by decide, by decide⟩

/-- C8: resumeService.delete reads the record first, then deletes the
database row, then issues the two blob deletions, in that order, and
returns success whatever the outcome of the blob deletions, whose
failures are caught and logged, never thrown. -/
theorem resume_delete_order_and_best_effort
    (rid p q : String) (row : ResumeRow) (blobDeleteOk : String → Bool)
    (h1 : row.resume_path = some p) (h2 : row.image_path = some q) :
    resumeDelete (some rid) (Except.ok row) true blobDeleteOk =
      (Except.ok (),
       [DeleteAction.getById rid, DeleteAction.dbDelete rid,
        DeleteAction.deleteBlob p "resumes",
        DeleteAction.deleteBlob q "resume-images"]) := by
  simp [resumeDelete, h1, h2]

/-- C8 witness: a concrete record whose blob deletions all fail still
deletes successfully with the full ordered trace. -/
theorem resume_delete_order_and_best_effort_witness :
    resumeDelete (some "r1")
      (Except.ok
        { id := "r1", resume_path := some "u1/pdf/a.pdf",
          image_path := some "u1/image/a.png" })
      true (fun _ => false) =
      (Except.ok (),
       [DeleteAction.getById "r1", DeleteAction.dbDelete "r1",
        DeleteAction.deleteBlob "u1/pdf/a.pdf" "resumes",
        DeleteAction.deleteBlob "u1/image/a.png" "resume-images"]) :=
  resume_delete_order_and_best_effort "r1" _ _ _ _ rfl rfl

/-- C9 counterexample: the claim says the step counter is monotonically
increasing across operations. The tracker call sequence that
handleAnalyze itself issues on a successful upload with preview, run
against the components totalSteps = 7, drives the counter to 9 and then
complete forces it back down to 7, so the state sequence is not
monotone. -/
theorem tracker_not_monotonic_counterexample :
    trackerStates 7 0 uploadFlowTrackerOps =
      [0, 1, 2, 3, 4, 5, 6, 7, 8, 9, 7] ∧
    nondecreasing (trackerStates 7 0 uploadFlowTrackerOps) = false :=
  ⟨rfl, rfl⟩

/-- C9 (amended): increment advances the counter by exactly one and
reports the step, totalSteps, rounded progress percent and message;
complete forces the counter to totalSteps (which can decrease it when
increments have exceeded totalSteps); the counter is strictly
increasing across increment operations. -/
theorem tracker_increment_reports_and_complete_forces
    (totalSteps state : Nat) (m : String) :
    trackerIncrement totalSteps state m =
      (state + 1,
       { step := state + 1, totalSteps := totalSteps,
         progress := progressPercent totalSteps (state + 1), message := m }) ∧
    (trackerComplete totalSteps state m).1 = totalSteps ∧
    state < (trackerIncrement totalSteps state m).1 :=
  ⟨rfl, rfl, Nat.lt_succ_self state⟩

/-- C10: a parsed response whose overall_score is 0 is classified as an
invalid response structure even with categories present, and in general
a parsed response is accepted exactly when overall_score is truthy (a
present non-zero number) and categories is present. -/
theorem falsy_overall_score_rejected
    (parseJson : String → Option ParsedAnalysis) (content : String)
    (r : ParsedAnalysis)
    (hp : parseJson (stripCodeFence content) = some r)
    (hs : r.overall_score = some 0) :
    attemptOfContent parseJson content = AttemptOutcome.invalidStructure ∧
    ∀ q : ParsedAnalysis, validAnalysis q = true ↔
      ((∃ n : Int, q.overall_score = some n ∧ n ≠ 0) ∧
        q.categories.isSome = true) := by
  constructor
  · simp [attemptOfContent, hp, validAnalysis, jsTruthyNum, hs]
  · intro q
    cases hq : q.overall_score with
    | none => simp [validAnalysis, jsTruthyNum, hq]
    | some n => simp [validAnalysis, jsTruthyNum, hq, bne_iff_ne]

/-- C1: evaluation of the code at the failing input of the cancellation
claim. The user cancels right after the database record was created
(abort signal observed at checkpoint 4), the PDF and preview blobs
having been uploaded. handleAnalyze exits through its cancellation
branch without running any cleanup, and handleCancel then runs
cleanupFailedUpload on the transactionState React state, which
handleAnalyze never populated: after the cancellation cleanup finishes
both blobs of the transaction and its database row remain, violating
the claim. The last conjunct shows the divergence from the terminal
failure path: cleanup applied to the live local transaction state, as
a terminal failure does, would have removed everything. -/
theorem cancel_cleanup_misses_live_transaction :
    let env : UploadEnv :=
      { healthOk := true, extractOk := true, extractedTextLen := 120,
        pdfPath := "user1/pdf/resume.pdf", pdfUploadOk := true,
        imagePath := "user1/image/resume.png", preview := PreviewOutcome.ok,
        createOk := true, aiResult := none, updateFeedbackOk := true,
        cancelAtCheckpoint := some 4 }
    let run := handleAnalyzeRun env "resume-1" { blobs := [], records := [] }
      emptyTransactionState
    run.outcome = UploadOutcome.cancelled ∧
    run.localTx.filesUploaded =
      [("user1/pdf/resume.pdf", "resumes"),
       ("user1/image/resume.png", "resume-images")] ∧
    run.localTx.dbRecordCreated = true ∧
    run.reactTx = emptyTransactionState ∧
    (handleCancel run.reactTx run.world).1.blobs =
      [("user1/pdf/resume.pdf", "resumes"),
       ("user1/image/resume.png", "resume-images")] ∧
    (handleCancel run.reactTx run.world).1.records =
      [{ id := "resume-1", image_path := some "user1/image/resume.png",
         feedback := none }] ∧
    cleanupFailedUpload run.localTx run.world = { blobs := [], records := [] } :=
  ⟨rfl, rfl, rfl, rfl, rfl, rfl, rfl⟩

/-- C6: when the AI analysis fails on all its attempts during an
otherwise successful upload, the transaction does not roll back: the
feedback update is still invoked with the placeholder feedback object,
whose overall_score is 0 and whose categories each carry at least one
tip; the run completes, the record remains with the placeholder
attached, and the uploaded PDF blob remains stored. -/
theorem ai_failure_placeholder_feedback_persisted
    (env : UploadEnv) (rid : String) (bs : List (String × String))
    (rtx : UploadTx)
    (h1 : env.extractOk = true) (h2 : 50 ≤ env.extractedTextLen)
    (h3 : env.pdfUploadOk = true) (h4 : env.createOk = true)
    (h5 : env.aiResult = none) (h6 : env.updateFeedbackOk = true)
    (h7 : env.cancelAtCheckpoint = none) :
    (handleAnalyzeRun env rid ⟨bs, []⟩ rtx).persisted =
      some placeholderFeedback ∧
    placeholderFeedback.overall_score = 0 ∧
    placeholderFeedback.categories.formatting.tips ≠ [] ∧
    placeholderFeedback.categories.content.tips ≠ [] ∧
    placeholderFeedback.categories.keywords.tips ≠ [] ∧
    placeholderFeedback.categories.experience.tips ≠ [] ∧
    placeholderFeedback.categories.skills.tips ≠ [] ∧
    (handleAnalyzeRun env rid ⟨bs, []⟩ rtx).outcome =
      UploadOutcome.completed rid ∧
    (handleAnalyzeRun env rid ⟨bs, []⟩ rtx).world.records =
      [{ id := rid,
         image_path := previewRecordPath env.preview env.imagePath,
         feedback := some placeholderFeedback }] ∧
    (env.pdfPath, "resumes") ∈ (handleAnalyzeRun env rid ⟨bs, []⟩ rtx).world.blobs := by
  have h2' : ¬ (env.extractedTextLen < 50) := not_lt.mpr h2
  cases hp : env.preview <;>
    simp [handleAnalyzeRun, signalAborted, analysisOrPlaceholder, initialTx,
      emptyTransactionState, previewRecordPath, h1, h2', h3, h4, h5, h6, h7,
      hp, placeholderFeedback]

/-- C6 witness: a concrete upload whose AI call fails persists the
placeholder feedback and completes. -/
theorem ai_failure_placeholder_feedback_persisted_witness :
    let env : UploadEnv :=
      { healthOk := true, extractOk := true, extractedTextLen := 120,
        pdfPath := "u1/pdf/r.pdf", pdfUploadOk := true,
        imagePath := "u1/image/r.png", preview := PreviewOutcome.ok,
        createOk := true, aiResult := none, updateFeedbackOk := true,
        cancelAtCheckpoint := none }
    (handleAnalyzeRun env "r1" ⟨[], []⟩ emptyTransactionState).persisted =
      some placeholderFeedback ∧
    placeholderFeedback.overall_score = 0 ∧
    placeholderFeedback.categories.formatting.tips ≠ [] ∧
    placeholderFeedback.categories.content.tips ≠ [] ∧
    placeholderFeedback.categories.keywords.tips ≠ [] ∧
    placeholderFeedback.categories.experience.tips ≠ [] ∧
    placeholderFeedback.categories.skills.tips ≠ [] ∧
    (handleAnalyzeRun env "r1" ⟨[], []⟩ emptyTransactionState).outcome =
      UploadOutcome.completed "r1" ∧
    (handleAnalyzeRun env "r1" ⟨[], []⟩ emptyTransactionState).world.records =
      [{ id := "r1", image_path := some "u1/image/r.png",
         feedback := some placeholderFeedback }] ∧
    ("u1/pdf/r.pdf", "resumes") ∈
      (handleAnalyzeRun env "r1" ⟨[], []⟩ emptyTransactionState).world.blobs :=
  ai_failure_placeholder_feedback_persisted
    { healthOk := true, extractOk := true, extractedTextLen := 120,
      pdfPath := "u1/pdf/r.pdf", pdfUploadOk := true,
      imagePath := "u1/image/r.png", preview := PreviewOutcome.ok,
      createOk := true, aiResult := none, updateFeedbackOk := true,
      cancelAtCheckpoint := none }
    "r1" [] emptyTransactionState rfl (by decide) rfl rfl rfl rfl rfl

/-- C7 counterexample: the claim says a preview failure, including the
preview-image upload raising, reaches PersistRecord with imagePath
null. When the preview upload raises, the local imagePath variable was
already assigned the generated path before the failing await
(src/unnamed/part_005 line 377), so the record is created with that
dangling non-null path, no image blob having been stored; the run
still completes. -/
theorem preview_upload_failure_dangling_path_counterexample :
    let env : UploadEnv :=
      { healthOk := true, extractOk := true, extractedTextLen := 120,
        pdfPath := "u3/pdf/r.pdf", pdfUploadOk := true,
        imagePath := "u3/image/r.png", preview := PreviewOutcome.uploadFailed,
        createOk := true, aiResult := none, updateFeedbackOk := true,
        cancelAtCheckpoint := none }
    let run := handleAnalyzeRun env "r3" ⟨[], []⟩ emptyTransactionState
    run.world.records =
      [{ id := "r3", image_path := some "u3/image/r.png",
         feedback := some placeholderFeedback }] ∧
    run.world.blobs = [("u3/pdf/r.pdf", "resumes")] ∧
    run.outcome = UploadOutcome.completed "r3" :=
  ⟨rfl, rfl, rfl⟩

/-- C7 (amended): a failure inside the preview block is swallowed and
the transaction still reaches PersistRecord and, absent other
failures, Complete; but the record carries imagePath null only when
convertPdfToImage raised before the path assignment, while a
preview-image upload failure leaves the record with the
already-generated dangling path, no image blob having been stored. -/
theorem preview_failure_noncritical
    (env : UploadEnv) (rid : String) (bs : List (String × String))
    (rtx : UploadTx)
    (h1 : env.extractOk = true) (h2 : 50 ≤ env.extractedTextLen)
    (h3 : env.pdfUploadOk = true) (hp : env.preview ≠ PreviewOutcome.ok)
    (h4 : env.createOk = true) (h6 : env.updateFeedbackOk = true)
    (h7 : env.cancelAtCheckpoint = none) :
    (handleAnalyzeRun env rid ⟨bs, []⟩ rtx).world.records =
      [{ id := rid, image_path := previewRecordPath env.preview env.imagePath,
         feedback := some (analysisOrPlaceholder env.aiResult) }] ∧
    previewRecordPath PreviewOutcome.convertFailed env.imagePath = none ∧
    previewRecordPath PreviewOutcome.uploadFailed env.imagePath =
      some env.imagePath ∧
    (handleAnalyzeRun env rid ⟨bs, []⟩ rtx).world.blobs =
      bs ++ [(env.pdfPath, "resumes")] ∧
    (handleAnalyzeRun env rid ⟨bs, []⟩ rtx).outcome =
      UploadOutcome.completed rid := by
  have h2' : ¬ (env.extractedTextLen < 50) := not_lt.mpr h2
  cases hvp : env.preview with
  | ok => exact absurd hvp hp
  | convertFailed =>
    refine ⟨?_, rfl, rfl, ?_, ?_⟩ <;>
      simp [handleAnalyzeRun, signalAborted, initialTx, emptyTransactionState,
        previewRecordPath, h1, h2', h3, hvp, h4, h6, h7]
  | uploadFailed =>
    refine ⟨?_, rfl, rfl, ?_, ?_⟩ <;>
      simp [handleAnalyzeRun, signalAborted, initialTx, emptyTransactionState,
        previewRecordPath, h1, h2', h3, hvp, h4, h6, h7]

/-- C7 witness: a concrete upload whose convertPdfToImage raises
creates its record with a null image path and completes. -/
theorem preview_failure_noncritical_witness :
    let env : UploadEnv :=
      { healthOk := true, extractOk := true, extractedTextLen := 120,
        pdfPath := "u2/pdf/r.pdf", pdfUploadOk := true,
        imagePath := "u2/image/r.png", preview := PreviewOutcome.convertFailed,
        createOk := true, aiResult := none, updateFeedbackOk := true,
        cancelAtCheckpoint := none }
    (handleAnalyzeRun env "r2" ⟨[], []⟩ emptyTransactionState).world.records =
      [{ id := "r2", image_path := none,
         feedback := some placeholderFeedback }] ∧
    previewRecordPath PreviewOutcome.convertFailed "u2/image/r.png" = none ∧
    previewRecordPath PreviewOutcome.uploadFailed "u2/image/r.png" =
      some "u2/image/r.png" ∧
    (handleAnalyzeRun env "r2" ⟨[], []⟩ emptyTransactionState).world.blobs =
      [] ++ [("u2/pdf/r.pdf", "resumes")] ∧
    (handleAnalyzeRun env "r2" ⟨[], []⟩ emptyTransactionState).outcome =
      UploadOutcome.completed "r2" :=
  preview_failure_noncritical
    { healthOk := true, extractOk := true, extractedTextLen := 120,
      pdfPath := "u2/pdf/r.pdf", pdfUploadOk := true,
      imagePath := "u2/image/r.png", preview := PreviewOutcome.convertFailed,
      createOk := true, aiResult := none, updateFeedbackOk := true,
      cancelAtCheckpoint := none }
    "r2" [] emptyTransactionState rfl (by decide) rfl (by decide) rfl rfl rfl

/-- C10 witness: a response parsing to overall_score 0 with categories
present is rejected as invalid structure. -/
theorem falsy_overall_score_rejected_witness :
    attemptOfContent
      (fun _ => some
        { overall_score := some 0, ats_score := some 0,
          categories := some [] }) "score" = AttemptOutcome.invalidStructure :=
  (falsy_overall_score_rejected _ "score" _ rfl rfl).1

end ATSpect
